import Mathlib

/-!
Verification development for the PyGerber Gerber X3 parsing and
state-tracking interpretation pipeline.

The definitions below are a shallow embedding of the Python sources:

* `src/pygerber/gerberx3/parser/state.py` (`State`, `parse_coordinate`,
  `get_coordinateParser`, `get_current_aperture`, `get_units`),
* `src/pygerber/gerberx3/parser/parser.py` (`Parser._update_drawing_state`,
  `ParserOnErrorAction`),
* `src/pygerber/gerberx3/tokenizer/tokens/d01_draw.py` (`D01Draw`),
* `src/pygerber/gerberx3/parser2/context2.py` (`Parser2Context`),
* `src/pygerber/gerberx3/parser/pyparsing/grammar.py` (the SR/AB close
  elements and the macro arithmetic-expression grammar),
* `src/pygerber/backend/rasterized_2d/draw_actions/draw_arc.py`
  (`Rasterized2DDrawArc._draw_arc`).

Python `Decimal` values are modelled as `ℚ`, Python dictionaries as
association lists, Python exceptions as `Except` error values, and dynamic
dispatch (backend classes, coordinate parsers) as explicit function fields.
-/

namespace PyGerber

/-- Gerber draw polarities, from `pygerber.gerberx3.state_enums.Polarity`
(referenced throughout the sources; region variants per the spec's
"polarity (dark/clear, with a region-specific variant)"). -/
inductive Polarity where
  | Dark
  | Clear
  | DarkRegion
  | ClearRegion
  deriving DecidableEq, Repr

/-- `Polarity.to_region_variant`, used by `D01Draw.update_drawing_state`:
maps a polarity to its region-specific variant. -/
def Polarity.to_region_variant : Polarity → Polarity
  | .Dark => .DarkRegion
  | .Clear => .ClearRegion
  | .DarkRegion => .DarkRegion
  | .ClearRegion => .ClearRegion

/-- Draw modes set by G01/G02/G03, from
`pygerber.gerberx3.state_enums.DrawMode`. -/
inductive DrawMode where
  | Linear
  | ClockwiseCircular
  | CounterclockwiseCircular
  deriving DecidableEq, Repr

/-- Drawing units set by the MO command, from
`pygerber.gerberx3.state_enums.Unit`. -/
inductive DrawUnit where
  | Millimeters
  | Inches
  deriving DecidableEq, Repr

/-- Mirroring set by LM, from `pygerber.gerberx3.state_enums.Mirroring`. -/
inductive Mirroring where
  | NoMirroring
  | X
  | Y
  | XY
  deriving DecidableEq, Repr

/-- `Offset` (`pygerber.backend.abstract.offset.Offset`) wraps a `Decimal`
distance; modelled as `ℚ`. -/
abbrev Offset := ℚ

/-- `Offset.NULL`: the zero offset. -/
def Offset.NULL : Offset := 0

/-- `Offset.new(value, unit)`: converts a resolved coordinate value to the
canonical internal unit (millimeters); inches are scaled by 25.4.
Modelled from the spec: `offset.py` is not among the sources; the spec fixes
"all internal offsets are stored in one canonical unit ... with conversion
applied once at resolution time". -/
def Offset.new (value : ℚ) (unit : DrawUnit) : Offset :=
  match unit with
  | .Millimeters => value
  | .Inches => value * 254 / 10

/-- 2D vector of offsets, `pygerber.backend.abstract.vector_2d.Vector2D`. -/
structure Vector2D where
  x : Offset
  y : Offset
  deriving DecidableEq, Repr

/-- Coordinate kinds, from
`pygerber.gerberx3.tokenizer.tokens.coordinate.CoordinateType` (values used
by `State.parse_coordinate` and the token constructors in the sources). -/
inductive CoordinateType where
  | X
  | Y
  | I
  | J
  | MISSING_X
  | MISSING_Y
  | MISSING_I
  | MISSING_J
  | NULL
  deriving DecidableEq, Repr

/-- A raw coordinate token (`pygerber.gerberx3.tokenizer.tokens.coordinate.
Coordinate`): a coordinate kind plus the packed digit string captured at
parse time. -/
structure Coordinate where
  coordinate_type : CoordinateType
  raw_offset : String
  deriving DecidableEq, Repr

/-- `CoordinateParser` (from `fs_coordinate_format.py`, set by the FS
command). Modelled from the spec: the file is not among the sources; the
parser converts a packed digit string to an exact decimal value per the
declared format, so it is embedded as an abstract conversion function. -/
structure CoordinateParser where
  parse : Coordinate → ℚ

/-- Public aperture handle held by the v1 interpreter state
(`pygerber.backend.abstract.aperture_handle.PublicApertureHandle`);
modelled by its aperture id, which is all the state-level code inspects. -/
structure PublicApertureHandle where
  aperture_id : String
  deriving DecidableEq, Repr

/-- Typed errors raised by the v1 parser and tokens
(`pygerber.gerberx3.parser.errors`).  `genericError` stands for any raised
exception that is not a `ParserError` subclass; `OnUpdateDrawingStateError`
is the wrapper the parser raises around such exceptions. -/
inductive PErr where
  | UnitNotSetError
  | CoordinateFormatNotSetError
  | ApertureNotSelectedError
  | OnUpdateDrawingStateError
  | genericError
  deriving DecidableEq, Repr

/-- `isinstance(e, ParserError)` for the modelled error values. -/
def PErr.is_parser_error : PErr → Bool
  | .UnitNotSetError => true
  | .CoordinateFormatNotSetError => true
  | .ApertureNotSelectedError => true
  | .OnUpdateDrawingStateError => true
  | .genericError => false

/-- GerberX3 interpreter state, `pygerber.gerberx3.parser.state.State`.
Fields are those of `state.py` plus `region_boundary_points` and
`is_multi_quadrant`, which `d01_draw.py` reads and writes on the same
object. -/
structure State where
  current_position : Vector2D := ⟨Offset.NULL, Offset.NULL⟩
  draw_units : Option DrawUnit := none
  coordinateParser : Option CoordinateParser := none
  current_aperture : Option PublicApertureHandle := none
  draw_mode : DrawMode := .Linear
  polarity : Polarity := .Dark
  mirroring : Mirroring := .NoMirroring
  rotation : ℚ := 0
  scaling : ℚ := 1
  is_region : Bool := false
  is_aperture_block : Bool := false
  is_step_and_repeat : Bool := false
  is_multi_quadrant : Bool := false
  region_boundary_points : List Vector2D := []
  file_attributes : List (String × String) := []
  apertures : List (String × PublicApertureHandle) := []

/-- `State.get_units`: drawing unit or `UnitNotSetError`. -/
def State.get_units (s : State) : Except PErr DrawUnit :=
  match s.draw_units with
  | none => .error .UnitNotSetError
  | some u => .ok u

/-- `State.get_coordinateParser`: coordinate parser or
`CoordinateFormatNotSetError`. -/
def State.get_coordinateParser (s : State) : Except PErr CoordinateParser :=
  match s.coordinateParser with
  | none => .error .CoordinateFormatNotSetError
  | some p => .ok p

/-- `State.get_current_aperture`: current aperture or
`ApertureNotSelectedError`. -/
def State.get_current_aperture (s : State) : Except PErr PublicApertureHandle :=
  match s.current_aperture with
  | none => .error .ApertureNotSelectedError
  | some a => .ok a

/-- `State.parse_coordinate`: substitution of missing axes with the current
position (X/Y) or zero (I/J), else conversion of the packed digit string via
the coordinate parser and unit. -/
def State.parse_coordinate (s : State) (coordinate : Coordinate) : Except PErr Offset :=
  if coordinate.coordinate_type = CoordinateType.MISSING_X then
    .ok s.current_position.x
  else if coordinate.coordinate_type = CoordinateType.MISSING_Y then
    .ok s.current_position.y
  else if coordinate.coordinate_type = CoordinateType.MISSING_I then
    .ok Offset.NULL
  else if coordinate.coordinate_type = CoordinateType.MISSING_J then
    .ok Offset.NULL
  else
    match s.get_coordinateParser with
    | .error e => .error e
    | .ok parser =>
      match s.get_units with
      | .error e => .error e
      | .ok unit => .ok (Offset.new (parser.parse coordinate) unit)

/-- Private aperture handle obtained from the backend
(`backend.get_private_aperture_handle(...)`); exposes the line width used
for stroked geometry and the drawing target pasted at stroke ends.
The drawing target is modelled by an opaque numeric identifier. -/
structure PrivateApertureHandle where
  line_width : Offset
  drawing_target : ℕ
  deriving DecidableEq, Repr

/-- Resolved drawing commands produced by the v1 tokens, as constructed in
`d01_draw.py`: aperture pastes (`get_draw_paste_cls`), vector lines
(`get_draw_vector_line_cls`) and arcs (`get_draw_arc_cls`). -/
inductive DrawCommand where
  | paste (polarity : Polarity) (center_position : Vector2D) (other : ℕ)
  | vectorLine (polarity : Polarity) (start_position end_position : Vector2D)
      (width : Offset)
  | arc (polarity : Polarity) (start_position : Vector2D)
      (dx_dy_center : Vector2D) (end_position : Vector2D) (width : Offset)
      (is_clockwise : Bool) (is_multi_quadrant : Bool)
  deriving DecidableEq, Repr

/-- Arguments handed to the backend's `DrawArc` class in `d01_draw.py`;
used both for emitted arc commands and for `calculate_arc_points`. -/
structure DrawArcParams where
  polarity : Polarity
  start_position : Vector2D
  dx_dy_center : Vector2D
  end_position : Vector2D
  width : Offset
  is_clockwise : Bool
  is_multi_quadrant : Bool

/-- The v1 backend as the tokens see it
(`pygerber.backend.abstract.backend_cls.Backend`): the
`draw_region_outlines` option, the private-handle lookup, and the
`calculate_arc_points` method of the arc class returned by
`get_draw_arc_cls()` (dynamic dispatch modelled as function fields). -/
structure Backend where
  draw_region_outlines : Bool
  get_private_aperture_handle : PublicApertureHandle → PrivateApertureHandle
  calculate_arc_points : DrawArcParams → List Vector2D

/-- The D01 plot token, `pygerber.gerberx3.tokenizer.tokens.d01_draw.D01Draw`. -/
structure D01Draw where
  x : Coordinate
  y : Coordinate
  i : Coordinate
  j : Coordinate

/-- `D01Draw._create_draw_commands`: aperture paste at the start position,
then (outside regions, or when region outlines are drawn) a line or arc per
the draw mode, then aperture paste at the end position.  The generator is
modelled by the list of commands it yields; a raised exception aborts the
whole list, as `list.extend` of a generator does. -/
def D01Draw._create_draw_commands (tok : D01Draw) (state : State)
    (backend : Backend) (end_position start_position : Vector2D)
    (polarity : Polarity) : Except PErr (List DrawCommand) :=
  match state.get_current_aperture with
  | .error e => .error e
  | .ok handle =>
    let current_aperture := backend.get_private_aperture_handle handle
    let head := DrawCommand.paste polarity start_position
      current_aperture.drawing_target
    let last := DrawCommand.paste polarity end_position
      current_aperture.drawing_target
    match state.draw_mode with
    | .Linear =>
      if !state.is_region || backend.draw_region_outlines then
        .ok [head,
          DrawCommand.vectorLine polarity start_position end_position
            current_aperture.line_width,
          last]
      else
        .ok [head, last]
    | .ClockwiseCircular | .CounterclockwiseCircular =>
      match state.parse_coordinate tok.i with
      | .error e => .error e
      | .ok i =>
        match state.parse_coordinate tok.j with
        | .error e => .error e
        | .ok j =>
          let center_offset : Vector2D := ⟨i, j⟩
          if !state.is_region || backend.draw_region_outlines then
            .ok [head,
              DrawCommand.arc polarity start_position center_offset
                end_position current_aperture.line_width
                (state.draw_mode = DrawMode.ClockwiseCircular)
                state.is_multi_quadrant,
              last]
          else
            .ok [head, last]

/-- `D01Draw._create_region_points`: appends the contour boundary points for
this segment to `state.region_boundary_points` (start/end points for linear
segments, the computed arc points for circular ones).  The in-place list
mutation is modelled by returning the updated state. -/
def D01Draw._create_region_points (tok : D01Draw) (state : State)
    (backend : Backend) (end_position start_position : Vector2D)
    (polarity : Polarity) : Except PErr State :=
  match state.draw_mode with
  | .Linear =>
    .ok { state with region_boundary_points :=
      state.region_boundary_points ++ [start_position, end_position] }
  | .ClockwiseCircular | .CounterclockwiseCircular =>
    match state.parse_coordinate tok.i with
    | .error e => .error e
    | .ok i =>
      match state.parse_coordinate tok.j with
      | .error e => .error e
      | .ok j =>
        let center_offset : Vector2D := ⟨i, j⟩
        let arc_points := backend.calculate_arc_points
          (DrawArcParams.mk polarity start_position center_offset
            end_position Offset.NULL
            (state.draw_mode = DrawMode.ClockwiseCircular)
            state.is_multi_quadrant)
        .ok { state with region_boundary_points :=
          state.region_boundary_points ++ arc_points }

/-- `D01Draw.update_drawing_state`: resolves the end position, emits draw
commands unless suppressed by region mode, appends contour points while in
region mode, and advances the current position unconditionally. -/
def D01Draw.update_drawing_state (tok : D01Draw) (state : State)
    (backend : Backend) : Except PErr (State × List DrawCommand) :=
  match state.parse_coordinate tok.x with
  | .error e => .error e
  | .ok x =>
    match state.parse_coordinate tok.y with
    | .error e => .error e
    | .ok y =>
      let end_position : Vector2D := ⟨x, y⟩
      let start_position := state.current_position
      let polarity :=
        if state.is_region then state.polarity.to_region_variant
        else state.polarity
      let draw_commands :=
        if !state.is_region || backend.draw_region_outlines then
          D01Draw._create_draw_commands tok state backend end_position
            start_position polarity
        else
          .ok []
      match draw_commands with
      | .error e => .error e
      | .ok draw_commands =>
        let state2 :=
          if state.is_region then
            D01Draw._create_region_points tok state backend end_position
              start_position polarity
          else
            .ok state
        match state2 with
        | .error e => .error e
        | .ok state2 =>
          .ok ({ state2 with current_position := end_position },
            draw_commands)

/-- The D02 move token, `pygerber.gerberx3.tokenizer.tokens.d02_move.Move`. -/
structure Move where
  x : Coordinate
  y : Coordinate

/-- Modelled from the spec: `Move.update_drawing_state` is not among the
sources (only the token class is); per the spec, "D02 (move): updates
current position only, no geometry, no contour append", matching the
class docstring "No graphical object is generated". -/
def Move.update_drawing_state (tok : Move) (state : State)
    (_backend : Backend) : Except PErr (State × List DrawCommand) :=
  match state.parse_coordinate tok.x with
  | .error e => .error e
  | .ok x =>
    match state.parse_coordinate tok.y with
    | .error e => .error e
    | .ok y =>
      .ok ({ state with current_position := ⟨x, y⟩ }, [])

/-- The D03 flash token, `pygerber.gerberx3.tokenizer.tokens.d03_flash.Flash`. -/
structure Flash where
  x : Coordinate
  y : Coordinate

/-- Modelled from the spec: `Flash.update_drawing_state` is not among the
sources (only the token class is); per the spec, D03 "emits a flash command
using current aperture at current/target position; advances current
position", and per the region contour-only invariant it emits no flash
geometry while in region mode unless `draw_region_outlines` is enabled. -/
def Flash.update_drawing_state (tok : Flash) (state : State)
    (backend : Backend) : Except PErr (State × List DrawCommand) :=
  match state.parse_coordinate tok.x with
  | .error e => .error e
  | .ok x =>
    match state.parse_coordinate tok.y with
    | .error e => .error e
    | .ok y =>
      let end_position : Vector2D := ⟨x, y⟩
      if !state.is_region || backend.draw_region_outlines then
        match state.get_current_aperture with
        | .error e => .error e
        | .ok handle =>
          let current_aperture := backend.get_private_aperture_handle handle
          .ok ({ state with current_position := end_position },
            [DrawCommand.paste state.polarity end_position
              current_aperture.drawing_target])
      else
        .ok ({ state with current_position := end_position }, [])

/-- `pygerber.gerberx3.parser.parser.ParserOnErrorAction`. -/
inductive ParserOnErrorAction where
  | Ignore
  | Warn
  | Raise
  deriving DecidableEq, Repr

/-- A token as the v1 parser loop sees it: dynamic dispatch of
`token.update_drawing_state(state, backend)` modelled as a function field. -/
structure TokenStep where
  update_drawing_state : State → Except PErr (State × List DrawCommand)

/-- The mutable fields of `Parser` touched by `_update_drawing_state`:
interpreter state, accumulated draw actions, and the count of warnings
logged via `logging.warning` (to distinguish `Warn` from `Ignore`). -/
structure ParserRun where
  state : State
  draw_actions : List DrawCommand
  warnings : ℕ

/-- `Parser._update_drawing_state`: applies the token's state update; on an
exception, consults the run-wide `on_update_drawing_state_error` policy:
`Ignore` continues silently, `Raise` re-raises (wrapping non-`ParserError`
exceptions in `OnUpdateDrawingStateError`), `Warn` logs a warning and
continues.  In the `Warn`/`Ignore` cases the assignment
`self.state, actions = ...` never ran, so `state` and `draw_actions` are
unchanged. -/
def Parser._update_drawing_state (policy : ParserOnErrorAction)
    (token : TokenStep) (p : ParserRun) : Except PErr ParserRun :=
  match token.update_drawing_state p.state with
  | .ok (state, actions) =>
    .ok { p with state := state, draw_actions := p.draw_actions ++ actions }
  | .error e =>
    match policy with
    | .Ignore => .ok p
    | .Raise =>
      if e.is_parser_error then .error e
      else .error .OnUpdateDrawingStateError
    | .Warn => .ok { p with warnings := p.warnings + 1 }

/-- `Parser.parse_iter`'s driving loop over the token stack: every token is
processed with the same run-wide error policy; an error propagating out of
`_update_drawing_state` aborts the pass. -/
def Parser.parse_tokens (policy : ParserOnErrorAction)
    (tokens : List TokenStep) (p : ParserRun) : Except PErr ParserRun :=
  match tokens with
  | [] => .ok p
  | token :: rest =>
    match Parser._update_drawing_state policy token p with
    | .error e => .error e
    | .ok p2 => Parser.parse_tokens policy rest p2

/-- Aperture identifiers (`pygerber.gerberx3.tokenizer.aperture_id.
ApertureID`), strings such as "D10". -/
abbrev ApertureID := String

/-- A v2 aperture (`pygerber.gerberx3.parser2.apertures2.aperture2.
Aperture2`).  Modelled from the spec: `aperture2.py` is not among the
sources; per the spec an aperture holds an attribute mapping
(string key to string value) updated by attribute-attach commands.
`set_attribute` returns the updated (immutable-model) aperture. -/
structure Aperture2 where
  attributes : List (String × String)
  deriving DecidableEq, Repr

/-- `Aperture2.set_attribute`: attribute mapping update. -/
def Aperture2.set_attribute (a : Aperture2) (name value : String) : Aperture2 :=
  { a with attributes :=
      (a.attributes.filter (fun kv => kv.1 ≠ name)) ++ [(name, value)] }

/-- A v2 resolved command (`pygerber.gerberx3.parser2.commands2.command2.
Command2`); the buffer-routing code treats commands as opaque payloads, so
only the polarity field and an identifying tag are modelled. -/
structure Command2 where
  polarity : Polarity
  tag : ℕ
  deriving DecidableEq, Repr

/-- A v2 command buffer (`pygerber.gerberx3.parser2.command_buffer2.
CommandBuffer2`): an ordered, appendable container of resolved commands. -/
abbrev CommandBuffer2 := List Command2

/-- `CommandBuffer2.add_command`: append one command. -/
def CommandBuffer2.add_command (buf : CommandBuffer2) (cmd : Command2) :
    CommandBuffer2 :=
  buf ++ [cmd]

/-- Typed errors of the v2 parser
(`pygerber.gerberx3.parser2.errors2`). -/
inductive Err2 where
  | ReferencedNotInitializedBlockBufferError
  | RegionNotInitializedError
  | StepAndRepeatNotInitializedError
  | ApertureNotDefined2Error
  | MacroNotDefinedError
  | ApertureAlreadyDefinedError
  deriving DecidableEq, Repr

/-- The v2 interpreter state (`pygerber.gerberx3.parser2.state2.State2`).
Modelled from the spec: `state2.py` is not among the sources; the fields are
those read through the `Parser2Context` getters the claims use (region /
aperture-block / step-and-repeat flags, the aperture registry and the
current aperture id, per the spec's `InterpreterState`). -/
structure State2 where
  is_region : Bool := false
  is_aperture_block : Bool := false
  is_step_and_repeat : Bool := false
  apertures : List (ApertureID × Aperture2) := []
  current_aperture_id : Option ApertureID := none
  deriving Repr

/-- `State2.get_aperture`: dictionary lookup, `KeyError` (modelled as
`none`) when the id was never defined. -/
def State2.get_aperture (s : State2) (key : ApertureID) : Option Aperture2 :=
  (s.apertures.find? (fun kv => kv.1 = key)).map (·.2)

/-- `State2.set_aperture`: dictionary store. -/
def State2.set_aperture (s : State2) (key : ApertureID) (value : Aperture2) :
    State2 :=
  { s with apertures :=
      (s.apertures.filter (fun kv => kv.1 ≠ key)) ++ [(key, value)] }

/-- The v2 parsing context, `pygerber.gerberx3.parser2.context2.
Parser2Context`: interpreter state plus the main command buffer, the
optional region buffer, the stack of open aperture-block buffers (appended
at the end, `[-1]` is the innermost) and the optional step-and-repeat
buffer. -/
structure Parser2Context where
  state : State2 := {}
  main_command_buffer : CommandBuffer2 := []
  region_command_buffer : Option CommandBuffer2 := none
  block_command_buffer_stack : List CommandBuffer2 := []
  step_and_repeat_command_buffer : Option CommandBuffer2 := none
  deriving Repr

/-- `Parser2Context.pop_block_command_buffer`: latest block buffer plus the
context without it; raises `ReferencedNotInitializedBlockBufferError` when
no block buffer is open. -/
def Parser2Context.pop_block_command_buffer (ctx : Parser2Context) :
    Except Err2 (CommandBuffer2 × Parser2Context) :=
  match ctx.block_command_buffer_stack.getLast? with
  | none => .error .ReferencedNotInitializedBlockBufferError
  | some buf =>
    .ok (buf, { ctx with
      block_command_buffer_stack := ctx.block_command_buffer_stack.dropLast })

/-- `Parser2Context.get_is_region`. -/
def Parser2Context.get_is_region (ctx : Parser2Context) : Bool :=
  ctx.state.is_region

/-- `Parser2Context.get_is_aperture_block`. -/
def Parser2Context.get_is_aperture_block (ctx : Parser2Context) : Bool :=
  ctx.state.is_aperture_block

/-- `Parser2Context.get_is_step_and_repeat`. -/
def Parser2Context.get_is_step_and_repeat (ctx : Parser2Context) : Bool :=
  ctx.state.is_step_and_repeat

/-- `Parser2Context.add_command`: routes a resolved command to the region
buffer while region mode is active, else to the innermost open
aperture-block buffer, else to the step-and-repeat buffer, else to the main
command buffer.  Accessing an active-but-uninitialized buffer raises the
corresponding typed error (`get_region_command_buffer`,
`first_block_command_buffer`, `get_step_and_repeat_command_buffer`). -/
def Parser2Context.add_command (ctx : Parser2Context) (command : Command2) :
    Except Err2 Parser2Context :=
  if ctx.get_is_region then
    match ctx.region_command_buffer with
    | none => .error .RegionNotInitializedError
    | some buf =>
      .ok { ctx with region_command_buffer := some (buf.add_command command) }
  else if ctx.get_is_aperture_block then
    match ctx.block_command_buffer_stack.getLast? with
    | none => .error .ReferencedNotInitializedBlockBufferError
    | some buf =>
      .ok { ctx with block_command_buffer_stack :=
        ctx.block_command_buffer_stack.dropLast ++ [buf.add_command command] }
  else if ctx.get_is_step_and_repeat then
    match ctx.step_and_repeat_command_buffer with
    | none => .error .StepAndRepeatNotInitializedError
    | some buf =>
      .ok { ctx with
        step_and_repeat_command_buffer := some (buf.add_command command) }
  else
    .ok { ctx with main_command_buffer :=
      ctx.main_command_buffer.add_command command }

/-- `Parser2Context.get_aperture`: registry lookup, raising
`ApertureNotDefined2Error` on a `KeyError`. -/
def Parser2Context.get_aperture (ctx : Parser2Context) (key : ApertureID) :
    Except Err2 Aperture2 :=
  match ctx.state.get_aperture key with
  | none => .error .ApertureNotDefined2Error
  | some a => .ok a

/-- `Parser2Context.set_aperture`: registry store through `set_state`. -/
def Parser2Context.set_aperture (ctx : Parser2Context) (key : ApertureID)
    (value : Aperture2) : Parser2Context :=
  { ctx with state := ctx.state.set_aperture key value }

/-- Modelled from the spec: the D-code aperture-selection hook
(`parser2hooks.py`, not among the sources) makes an aperture current;
per the spec, "`select(id)` fails if undefined", the lookup going through
`Parser2Context.get_aperture`. -/
def Parser2Context.select_aperture (ctx : Parser2Context) (key : ApertureID) :
    Except Err2 Parser2Context :=
  match ctx.get_aperture key with
  | .error e => .error e
  | .ok _ =>
    .ok { ctx with state := { ctx.state with current_aperture_id := some key } }

/-- Modelled from the spec: the aperture-definition hook
(`parser2hooks.py`, not among the sources) registers a new aperture; per
the spec, "`define(id, aperture)` fails on duplicate id" and "redefinition
of an existing id is an error". -/
def Parser2Context.define_aperture (ctx : Parser2Context) (key : ApertureID)
    (value : Aperture2) : Except Err2 Parser2Context :=
  match ctx.state.get_aperture key with
  | some _ => .error .ApertureAlreadyDefinedError
  | none => .ok (ctx.set_aperture key value)

/-- The `set_attribute` call on the proxy returned by
`Parser2Context.get_current_aperture_mutable_proxy`: when no aperture id is
current, the proxy is an `EmptyAperture2MutableProxy` whose `set_attribute`
body is empty (a silent no-op); otherwise an `Aperture2MutableProxy`, whose
`set_attribute` looks the aperture up (raising `ApertureNotDefined2Error`
if it vanished) and stores the updated aperture. -/
def Parser2Context.proxy_set_attribute (ctx : Parser2Context)
    (name value : String) : Except Err2 Parser2Context :=
  match ctx.state.current_aperture_id with
  | none => .ok ctx
  | some aperture_id =>
    match ctx.get_aperture aperture_id with
    | .error e => .error e
    | .ok aperture =>
      .ok (ctx.set_aperture aperture_id (aperture.set_attribute name value))

/-- AST nodes built by the pyparsing grammar
(`pygerber.gerberx3.ast.nodes`); only the construct-close nodes the claims
inspect are modelled, each carrying the `source`/`location` pair the parse
actions pass to the node constructor. -/
inductive Node where
  | ABopen (source : String) (location : ℕ) (aperture_id : ApertureID)
  | ABclose (source : String) (location : ℕ)
  | SRopen (source : String) (location : ℕ)
  | SRclose (source : String) (location : ℕ)
  deriving DecidableEq, Repr

/-- Whether a node is a step-and-repeat close node (`SRclose`). -/
def Node.is_sr_close : Node → Bool
  | .SRclose _ _ => true
  | _ => false

/-- Whether a node is an aperture-block close node (`ABclose`). -/
def Node.is_ab_close : Node → Bool
  | .ABclose _ _ => true
  | _ => false

/-- The parse action `_` attached to `pp.Literal("SR")` in
`Grammar.sr_close` (grammar.py lines 306-307): it constructs
`self.get_cls(ABclose)(source=s, location=loc)`. -/
def Grammar.sr_close_action (s : String) (loc : ℕ) : Node :=
  Node.ABclose s loc

/-- The parse action `_` attached to `pp.Literal("AB")` in
`Grammar.ab_close` (grammar.py lines 228-229): it constructs
`self.get_cls(ABclose)(source=s, location=loc)`. -/
def Grammar.ab_close_action (s : String) (loc : ℕ) : Node :=
  Node.ABclose s loc

/-- The `Grammar.sr_close` element:
`extended_command_open + pp.Literal("SR") + command_end +
extended_command_close`, i.e. the input `%SR*%`, with the parse action run
at the location of the `SR` literal (offset 1, after the `%`). -/
def Grammar.sr_close_parse (s : String) : Option Node :=
  if s = "%SR*%" then some (Grammar.sr_close_action s 1) else none

/-- The `Grammar.ab_close` element, matching `%AB*%` analogously. -/
def Grammar.ab_close_parse (s : String) : Option Node :=
  if s = "%AB*%" then some (Grammar.ab_close_action s 1) else none

/-- Lexical tokens feeding the macro arithmetic-expression grammar
(`Grammar.expression`): constants matched by `Grammar.constant`
(`self.double`), `$n` variables matched by `Grammar.variable`, and the
four operator symbols (`x`/`X` both lex to `times`). -/
inductive MacroTok where
  | num (value : ℚ)
  | varRef (index : ℕ)
  | plus
  | minus
  | times
  | slash
  deriving DecidableEq, Repr

/-- Macro arithmetic expression AST
(`pygerber.gerberx3.ast.nodes.math`): `Constant`, `Variable`, the unary
`Neg`/`Pos` nodes with one operand and the binary `Add`/`Sub`/`Mul`/`Div`
nodes, each holding the flat left-to-right operand list the grammar's
parse actions receive (grammar.py `_add`/`_sub`/`_mul`/`_div` assert
`len(token_list) > 1` and store `operands=token_list`). -/
inductive Expression where
  | Constant (constant : ℚ)
  | Variable (index : ℕ)
  | Neg (operand : Expression)
  | Pos (operand : Expression)
  | Add (operands : List Expression)
  | Sub (operands : List Expression)
  | Mul (operands : List Expression)
  | Div (operands : List Expression)

/-- The `factor` of `Grammar.expression`: `self.constant | self.variable`. -/
def parseFactor : List MacroTok → Option (Expression × List MacroTok)
  | .num v :: rest => some (.Constant v, rest)
  | .varRef n :: rest => some (.Variable n, rest)
  | _ => none

/-- The tightest `infix_notation` level of `Grammar.expression`:
unary `-` (`pp.OpAssoc.RIGHT`, action `_neg`), recursing on itself before
falling back to the factor, as pyparsing's
`Group(op + thisExpr) | lastExpr` does. -/
def parseNegLevel : List MacroTok → Option (Expression × List MacroTok)
  | .minus :: rest =>
    (parseNegLevel rest).map (fun er => (.Neg er.1, er.2))
  | toks => parseFactor toks

/-- The second `infix_notation` level: unary `+` (action `_pos`). -/
def parsePosLevel : List MacroTok → Option (Expression × List MacroTok)
  | .plus :: rest =>
    (parsePosLevel rest).map (fun er => (.Pos er.1, er.2))
  | toks => parseNegLevel toks

/-- One LEFT-associative binary `infix_notation` level:
matches `operand (op operand)*` greedily against the next-tighter level
and returns the flat operand list, leaving a trailing operator unconsumed
when no operand follows it (as pyparsing's bounded repetition does).
`fuel` bounds the recursion; `tokens.length + 1` always suffices since
every operand consumes at least one token. -/
def parseBinChain
    (lower : List MacroTok → Option (Expression × List MacroTok))
    (op : MacroTok) :
    ℕ → List MacroTok → Option (List Expression × List MacroTok)
  | 0, _ => none
  | fuel + 1, toks =>
    match lower toks with
    | none => none
    | some (e, rest) =>
      match rest with
      | t :: rest2 =>
        if t = op then
          match parseBinChain lower op fuel rest2 with
          | some (es, rest3) => some (e :: es, rest3)
          | none => some ([e], rest)
        else some ([e], rest)
      | [] => some ([e], [])

/-- The parse action of a LEFT-associative binary level
(`_add`/`_sub`/`_mul`/`_div`): with two or more collected operands it wraps
the flat list in the level's node; a single operand passes through
unchanged (pyparsing only fires the action when the repetition matched). -/
def parseBinLevel
    (lower : List MacroTok → Option (Expression × List MacroTok))
    (op : MacroTok) (node : List Expression → Expression) (fuel : ℕ)
    (toks : List MacroTok) : Option (Expression × List MacroTok) :=
  match parseBinChain lower op fuel toks with
  | none => none
  | some ([e], rest) => some (e, rest)
  | some (es, rest) => some (node es, rest)

/-- Division level of `Grammar.expression` (tightest binary level). -/
def parseDivLevel (fuel : ℕ) : List MacroTok →
    Option (Expression × List MacroTok) :=
  parseBinLevel parsePosLevel .slash Expression.Div fuel

/-- Multiplication level (`x`/`X`). -/
def parseMulLevel (fuel : ℕ) : List MacroTok →
    Option (Expression × List MacroTok) :=
  parseBinLevel (parseDivLevel fuel) .times Expression.Mul fuel

/-- Subtraction level. -/
def parseSubLevel (fuel : ℕ) : List MacroTok →
    Option (Expression × List MacroTok) :=
  parseBinLevel (parseMulLevel fuel) .minus Expression.Sub fuel

/-- Addition level (loosest). -/
def parseAddLevel (fuel : ℕ) : List MacroTok →
    Option (Expression × List MacroTok) :=
  parseBinLevel (parseSubLevel fuel) .plus Expression.Add fuel

/-- `Grammar.expression`: the full `infix_notation` tower
(unary `-`, unary `+`, `/`, `x`, binary `-`, binary `+`, from tightest to
loosest, in the order of the operator list passed to
`pp.infix_notation`), applied to a lexed token stream and required to
consume it entirely. -/
def Grammar.expression_parse (toks : List MacroTok) : Option Expression :=
  match parseAddLevel (toks.length + 1) toks with
  | some (e, []) => some e
  | _ => none

/-- The angle bookkeeping of `Rasterized2DDrawArc._draw_arc`
(draw_arc.py lines 55-61): given the start/end angles computed from the
arc-space positions (degrees, abstracted as inputs since
`angle_between_clockwise` is trigonometric), the angles are swapped for
clockwise arcs, and a multi-quadrant arc whose two angles coincide has its
end angle advanced by 360 degrees before being handed to
`image_draw.arc`. -/
def Rasterized2DDrawArc._draw_arc_angles (angle_start angle_end : ℚ)
    (is_clockwise is_multi_quadrant : Bool) : ℚ × ℚ :=
  let p :=
    if is_clockwise then (angle_end, angle_start) else (angle_start, angle_end)
  if is_multi_quadrant ∧ p.1 = p.2 then (p.1, p.2 + 360) else p

/-! ## Theorems -/

/-- C6: for every interpreter state and coordinate token, a missing X
coordinate resolves to the current position's x component, a missing Y to
its y component, and a missing I or J offset to zero; none of these cases
raises an error. -/
theorem missing_coordinate_resolution (s : State) (raw : String) :
    s.parse_coordinate ⟨.MISSING_X, raw⟩ = .ok s.current_position.x
  ∧ s.parse_coordinate ⟨.MISSING_Y, raw⟩ = .ok s.current_position.y
  ∧ s.parse_coordinate ⟨.MISSING_I, raw⟩ = .ok Offset.NULL
  ∧ s.parse_coordinate ⟨.MISSING_J, raw⟩ = .ok Offset.NULL :=
  ⟨rfl, rfl, rfl, rfl⟩

/-- C8: in every interpreter state whose coordinate format has not been
set, resolving a non-missing packed coordinate (X, Y, I or J) raises
`CoordinateFormatNotSetError`. -/
theorem coordinate_format_must_be_set (s : State) (t : CoordinateType)
    (raw : String) (hf : s.coordinateParser = none)
    (ht : t = .X ∨ t = .Y ∨ t = .I ∨ t = .J) :
    s.parse_coordinate ⟨t, raw⟩ = .error .CoordinateFormatNotSetError := by
  rcases ht with h | h | h | h <;> subst h <;>
    simp [State.parse_coordinate, State.get_coordinateParser, hf]

/-- Witness for C8 at a concrete state and coordinate. -/
theorem coordinate_format_must_be_set_witness :
    State.parse_coordinate {} ⟨.X, "123"⟩ =
      .error .CoordinateFormatNotSetError :=
  coordinate_format_must_be_set {} .X "123" rfl (Or.inl rfl)

/-- C10: attaching an aperture attribute through the current-aperture proxy
while no aperture is selected is a silent no-op: no error, and the context
(state, registry and all command buffers) is returned unchanged. -/
theorem set_attribute_without_aperture_is_noop (ctx : Parser2Context)
    (name value : String) (h : ctx.state.current_aperture_id = none) :
    ctx.proxy_set_attribute name value = .ok ctx := by
  simp [Parser2Context.proxy_set_attribute, h]

/-- Witness for C10 at the freshly initialized context. -/
theorem set_attribute_without_aperture_is_noop_witness :
    Parser2Context.proxy_set_attribute {} "key" "value" = .ok {} :=
  set_attribute_without_aperture_is_noop {} "key" "value" rfl

/-- C4: looking up or selecting an aperture id not in the registry raises
`ApertureNotDefined2Error`; using the current aperture when none is
selected raises `ApertureNotSelectedError`; defining an aperture under an
already-registered id raises a redefinition error. -/
theorem aperture_lifecycle_errors (ctx : Parser2Context) (key : ApertureID)
    (s : State) (ap : Aperture2) :
    (ctx.state.get_aperture key = none →
      ctx.get_aperture key = .error .ApertureNotDefined2Error
      ∧ ctx.select_aperture key = .error .ApertureNotDefined2Error)
  ∧ (s.current_aperture = none →
      s.get_current_aperture = .error .ApertureNotSelectedError)
  ∧ (∀ ap0, ctx.state.get_aperture key = some ap0 →
      ctx.define_aperture key ap = .error .ApertureAlreadyDefinedError) := by
  refine ⟨fun h => ?_, fun h => ?_, fun ap0 h => ?_⟩
  · constructor <;>
      simp [Parser2Context.get_aperture, Parser2Context.select_aperture, h]
  · simp [State.get_current_aperture, h]
  · simp [Parser2Context.define_aperture, h]

/-- Witness for C4: the empty registry rejects lookup of "D11", a fresh v1
state rejects drawing without a selected aperture, and a registry holding
"D10" rejects its redefinition. -/
theorem aperture_lifecycle_errors_witness :
    (Parser2Context.get_aperture {} "D11" = .error .ApertureNotDefined2Error
      ∧ Parser2Context.select_aperture {} "D11" =
          .error .ApertureNotDefined2Error)
  ∧ State.get_current_aperture {} = .error .ApertureNotSelectedError
  ∧ Parser2Context.define_aperture
      { state := { apertures := [("D10", ⟨[]⟩)] } } "D10" ⟨[]⟩ =
      .error .ApertureAlreadyDefinedError :=
  ⟨(aperture_lifecycle_errors {} "D11" {} ⟨[]⟩).1 rfl,
   (aperture_lifecycle_errors {} "D11" {} ⟨[]⟩).2.1 rfl,
   (aperture_lifecycle_errors { state := { apertures := [("D10", ⟨[]⟩)] } }
      "D10" {} ⟨[]⟩).2.2 ⟨[]⟩ rfl⟩

/-- C9: in multi-quadrant mode an arc whose computed start angle equals its
end angle is extended to a full 360-degree sweep; in single-quadrant mode
the angle pair is passed through unchanged, so the equal-angle case stays a
zero sweep. -/
theorem multi_quadrant_zero_sweep_is_full_circle
    (angle_start angle_end : ℚ) (is_clockwise : Bool) :
    (angle_start = angle_end →
      (Rasterized2DDrawArc._draw_arc_angles angle_start angle_end
          is_clockwise true).2 -
        (Rasterized2DDrawArc._draw_arc_angles angle_start angle_end
          is_clockwise true).1 = 360)
  ∧ Rasterized2DDrawArc._draw_arc_angles angle_start angle_end
      is_clockwise false =
      (if is_clockwise then (angle_end, angle_start)
       else (angle_start, angle_end)) := by
  constructor
  · intro h
    subst h
    cases is_clockwise <;>
      simp [Rasterized2DDrawArc._draw_arc_angles]
  · cases is_clockwise <;>
      simp [Rasterized2DDrawArc._draw_arc_angles]

/-- Witness for C9 at equal concrete angles. -/
theorem multi_quadrant_zero_sweep_is_full_circle_witness :
    (Rasterized2DDrawArc._draw_arc_angles 90 90 false true).2 -
      (Rasterized2DDrawArc._draw_arc_angles 90 90 false true).1 = 360 :=
  (multi_quadrant_zero_sweep_is_full_circle 90 90 false).1 rfl

/-- C5: the macro arithmetic expression grammar parses with precedence,
from tightest to loosest: unary sign, division, multiplication,
subtraction, addition, and same-precedence binary operators are grouped
left-to-right into one flat operand list (evaluated left-to-right), e.g.
`1+2x3` parses as `Add(1, Mul(2, 3))` and `8/4/2` as the left-to-right
grouped division `Div(8, 4, 2)`. -/
theorem expression_operator_precedence (a b c : ℚ) :
    Grammar.expression_parse [.num a, .plus, .num b, .times, .num c] =
      some (.Add [.Constant a, .Mul [.Constant b, .Constant c]])
  ∧ Grammar.expression_parse [.num a, .slash, .num b, .slash, .num c] =
      some (.Div [.Constant a, .Constant b, .Constant c])
  ∧ Grammar.expression_parse [.num a, .slash, .num b, .times, .num c] =
      some (.Mul [.Div [.Constant a, .Constant b], .Constant c])
  ∧ Grammar.expression_parse [.num a, .minus, .num b, .plus, .num c] =
      some (.Add [.Sub [.Constant a, .Constant b], .Constant c])
  ∧ Grammar.expression_parse [.minus, .num a, .slash, .num b] =
      some (.Div [.Neg (.Constant a), .Constant b])
  ∧ Grammar.expression_parse [.num a, .plus, .num b, .plus, .num c] =
      some (.Add [.Constant a, .Constant b, .Constant c]) :=
  ⟨rfl, rfl, rfl, rfl, rfl, rfl⟩

/-- C3: the code at the failing input: the `Grammar.sr_close` element
applied to the SR-close command `%SR*%` produces an `ABclose` node — an
aperture-block close, not a step-and-repeat close — although the `SRclose`
node kind exists and the element itself is named "SRclose"; meanwhile
`pop_block_command_buffer` on a context with no open block does raise the
typed `ReferencedNotInitializedBlockBufferError`. -/
theorem sr_close_parses_to_ab_close_node :
    Grammar.sr_close_parse "%SR*%" = some (Node.ABclose "%SR*%" 1)
  ∧ (Node.ABclose "%SR*%" 1).is_sr_close = false
  ∧ Parser2Context.pop_block_command_buffer {} =
      .error .ReferencedNotInitializedBlockBufferError :=
  ⟨rfl, rfl, rfl⟩

/-- C1: `Parser2Context.add_command` appends the resolved command to
exactly one buffer, by the fixed precedence region > innermost open
aperture block > step-and-repeat > main: in each case the resulting
context updates only the selected buffer, by appending the command. -/
theorem add_command_buffer_precedence (ctx : Parser2Context)
    (cmd : Command2) :
    (∀ buf, ctx.state.is_region = true →
      ctx.region_command_buffer = some buf →
      ctx.add_command cmd =
        .ok { ctx with region_command_buffer := some (buf ++ [cmd]) })
  ∧ (∀ rest buf, ctx.state.is_region = false →
      ctx.state.is_aperture_block = true →
      ctx.block_command_buffer_stack = rest ++ [buf] →
      ctx.add_command cmd =
        .ok { ctx with block_command_buffer_stack := rest ++ [buf ++ [cmd]] })
  ∧ (∀ buf, ctx.state.is_region = false →
      ctx.state.is_aperture_block = false →
      ctx.state.is_step_and_repeat = true →
      ctx.step_and_repeat_command_buffer = some buf →
      ctx.add_command cmd =
        .ok { ctx with step_and_repeat_command_buffer := some (buf ++ [cmd]) })
  ∧ (ctx.state.is_region = false →
      ctx.state.is_aperture_block = false →
      ctx.state.is_step_and_repeat = false →
      ctx.add_command cmd =
        .ok { ctx with main_command_buffer :=
          ctx.main_command_buffer ++ [cmd] }) := by
  refine ⟨fun buf h1 h2 => ?_, fun rest buf h1 h2 h3 => ?_,
    fun buf h1 h2 h3 h4 => ?_, fun h1 h2 h3 => ?_⟩
  · simp [Parser2Context.add_command, Parser2Context.get_is_region, h1, h2,
      CommandBuffer2.add_command]
  · simp [Parser2Context.add_command, Parser2Context.get_is_region,
      Parser2Context.get_is_aperture_block, h1, h2, h3,
      CommandBuffer2.add_command]
  · simp [Parser2Context.add_command, Parser2Context.get_is_region,
      Parser2Context.get_is_aperture_block,
      Parser2Context.get_is_step_and_repeat, h1, h2, h3, h4,
      CommandBuffer2.add_command]
  · simp [Parser2Context.add_command, Parser2Context.get_is_region,
      Parser2Context.get_is_aperture_block,
      Parser2Context.get_is_step_and_repeat, h1, h2, h3,
      CommandBuffer2.add_command]

/-- Witness for C1: with region mode active the command lands in the
region buffer; with all containers closed it lands in the main buffer. -/
theorem add_command_buffer_precedence_witness :
    Parser2Context.add_command
      { state := { is_region := true }, region_command_buffer := some [] }
      ⟨.Dark, 0⟩ =
      .ok { state := { is_region := true },
            region_command_buffer := some [⟨.Dark, 0⟩] }
  ∧ Parser2Context.add_command {} ⟨.Dark, 0⟩ =
      .ok { main_command_buffer := [⟨.Dark, 0⟩] } :=
  ⟨(add_command_buffer_precedence
      { state := { is_region := true }, region_command_buffer := some [] }
      ⟨.Dark, 0⟩).1 [] rfl rfl,
   (add_command_buffer_precedence {} ⟨.Dark, 0⟩).2.2.2 rfl rfl rfl⟩

/-- C7: a token whose state update raises is handled by the single
run-wide policy: under `Raise` the error propagates (wrapped when not a
`ParserError`) and the pass aborts; under `Warn` a warning is logged and
the pass continues; under `Ignore` the pass continues silently; in the
`Warn` and `Ignore` cases the interpreter state and draw actions after the
failing token equal those before it. -/
theorem parser_on_error_policy (policy : ParserOnErrorAction)
    (token : TokenStep) (p : ParserRun) (e : PErr)
    (h : token.update_drawing_state p.state = .error e) :
    (policy = .Raise →
      Parser._update_drawing_state policy token p =
        .error (if e.is_parser_error then e else .OnUpdateDrawingStateError)
      ∧ ∀ rest, ∃ e2,
          Parser.parse_tokens policy (token :: rest) p = .error e2)
  ∧ (policy = .Warn →
      Parser._update_drawing_state policy token p =
        .ok { p with warnings := p.warnings + 1 }
      ∧ ∀ rest, Parser.parse_tokens policy (token :: rest) p =
          Parser.parse_tokens policy rest { p with warnings := p.warnings + 1 })
  ∧ (policy = .Ignore →
      Parser._update_drawing_state policy token p = .ok p
      ∧ ∀ rest, Parser.parse_tokens policy (token :: rest) p =
          Parser.parse_tokens policy rest p) := by
  refine ⟨fun hp => ?_, fun hp => ?_, fun hp => ?_⟩ <;> subst hp
  · have h2 : Parser._update_drawing_state .Raise token p =
        .error (if e.is_parser_error then e
          else .OnUpdateDrawingStateError) := by
      simp only [Parser._update_drawing_state, h]
      split <;> rfl
    refine ⟨h2, fun rest => ?_⟩
    refine ⟨if e.is_parser_error then e else .OnUpdateDrawingStateError, ?_⟩
    simp [Parser.parse_tokens, h2]
  · have h2 : Parser._update_drawing_state .Warn token p =
        .ok { p with warnings := p.warnings + 1 } := by
      simp [Parser._update_drawing_state, h]
    exact ⟨h2, fun rest => by simp [Parser.parse_tokens, h2]⟩
  · have h2 : Parser._update_drawing_state .Ignore token p = .ok p := by
      simp [Parser._update_drawing_state, h]
    exact ⟨h2, fun rest => by simp [Parser.parse_tokens, h2]⟩

/-- A token whose state update always fails with `UnitNotSetError`
(e.g. an MO-dependent token before any unit was set), for the C7
witness. -/
def failingToken : TokenStep :=
  ⟨fun _ => .error .UnitNotSetError⟩

/-- A fresh parser run for the C7 witness. -/
def freshRun : ParserRun :=
  ⟨{}, [], 0⟩

/-- Witness for C7 at a concrete failing token under each policy. -/
theorem parser_on_error_policy_witness :
    Parser._update_drawing_state .Raise failingToken freshRun =
      .error (if PErr.is_parser_error .UnitNotSetError then .UnitNotSetError
        else .OnUpdateDrawingStateError)
  ∧ Parser._update_drawing_state .Warn failingToken freshRun =
      .ok { freshRun with warnings := freshRun.warnings + 1 }
  ∧ Parser._update_drawing_state .Ignore failingToken freshRun =
      .ok freshRun :=
  ⟨((parser_on_error_policy .Raise failingToken freshRun .UnitNotSetError
      rfl).1 rfl).1,
   ((parser_on_error_policy .Warn failingToken freshRun .UnitNotSetError
      rfl).2.1 rfl).1,
   ((parser_on_error_policy .Ignore failingToken freshRun .UnitNotSetError
      rfl).2.2 rfl).1⟩

/-- Helper for C2: a successful `_create_region_points` call only appends
to the region boundary points. -/
theorem create_region_points_appends (tok : D01Draw) (st : State)
    (bk : Backend) (ep sp : Vector2D) (pol : Polarity) (st2 : State)
    (h : D01Draw._create_region_points tok st bk ep sp pol = .ok st2) :
    ∃ pts, st2.region_boundary_points = st.region_boundary_points ++ pts := by
  unfold D01Draw._create_region_points at h
  split at h
  · exact ⟨[sp, ep], by cases h; rfl⟩
  · split at h
    · exact absurd h (by simp)
    · split at h
      · exact absurd h (by simp)
      · cases h
        exact ⟨_, rfl⟩
  · split at h
    · exact absurd h (by simp)
    · split at h
      · exact absurd h (by simp)
      · cases h
        exact ⟨_, rfl⟩

/-- C2: while region mode is active and `draw_region_outlines` is
disabled, D01/D02/D03 emit no flash/line/arc geometry — a successful D01
update produces no draw commands and only appends contour boundary points,
a D02 update produces no draw commands and leaves the contour untouched,
and a D03 update produces no draw commands. -/
theorem region_contour_only_invariant (state : State) (backend : Backend)
    (d1 : D01Draw) (d2 : Move) (d3 : Flash)
    (hr : state.is_region = true)
    (ho : backend.draw_region_outlines = false) :
    (∀ s' cmds, d1.update_drawing_state state backend = .ok (s', cmds) →
      cmds = [] ∧ ∃ pts, s'.region_boundary_points =
        state.region_boundary_points ++ pts)
  ∧ (∀ s' cmds, d2.update_drawing_state state backend = .ok (s', cmds) →
      cmds = [] ∧ s'.region_boundary_points = state.region_boundary_points)
  ∧ (∀ s' cmds, d3.update_drawing_state state backend = .ok (s', cmds) →
      cmds = []) := by
  refine ⟨fun s' cmds h => ?_, fun s' cmds h => ?_, fun s' cmds h => ?_⟩
  · simp only [D01Draw.update_drawing_state, hr, ho, Bool.not_true,
      Bool.false_or, if_false, Bool.false_eq_true, if_true] at h
    split at h
    · exact absurd h (by simp)
    · split at h
      · exact absurd h (by simp)
      · split at h
        · exact absurd h (by simp)
        · rename_i st2 heq
          injection h with h1
          injection h1 with h2 h3
          subst h2
          subst h3
          refine ⟨rfl, ?_⟩
          obtain ⟨pts, hpts⟩ :=
            create_region_points_appends _ _ _ _ _ _ _ heq
          exact ⟨pts, by simpa using hpts⟩
  · simp only [Move.update_drawing_state] at h
    split at h
    · exact absurd h (by simp)
    · split at h
      · exact absurd h (by simp)
      · injection h with h1
        injection h1 with h2 h3
        subst h2
        subst h3
        exact ⟨rfl, rfl⟩
  · simp only [Flash.update_drawing_state, hr, ho, Bool.not_true,
      Bool.false_or, if_false, Bool.false_eq_true, if_true] at h
    split at h
    · exact absurd h (by simp)
    · split at h
      · exact absurd h (by simp)
      · injection h with h1
        injection h1 with h2 h3
        subst h3
        rfl

/-- A coordinate parser resolving every packed digit string to 0, for the
C2 witness. -/
def zeroCoordinateParser : CoordinateParser :=
  ⟨fun _ => 0⟩

/-- A region-mode state with format and units set, for the C2 witness. -/
def regionState : State :=
  { is_region := true, coordinateParser := some zeroCoordinateParser,
    draw_units := some .Millimeters }

/-- A backend with `draw_region_outlines` disabled, for the C2 witness. -/
def plainBackend : Backend :=
  ⟨false, fun _ => ⟨0, 0⟩, fun _ => []⟩

/-- A concrete D01 token, for the C2 witness. -/
def sampleD01 : D01Draw :=
  ⟨⟨.X, "1"⟩, ⟨.Y, "2"⟩, ⟨.MISSING_I, ""⟩, ⟨.MISSING_J, ""⟩⟩

/-- A concrete D02 token, for the C2 witness. -/
def sampleMove : Move :=
  ⟨⟨.X, "1"⟩, ⟨.Y, "2"⟩⟩

/-- A concrete D03 token, for the C2 witness. -/
def sampleFlash : Flash :=
  ⟨⟨.X, "1"⟩, ⟨.Y, "2"⟩⟩

/-- Witness for C2: the concrete D01 in region mode yields no draw
commands and appends its contour points. -/
theorem region_contour_only_invariant_witness :
    ([] : List DrawCommand) = []
  ∧ ∃ pts,
      ({ regionState with
          region_boundary_points := [⟨0, 0⟩, ⟨0, 0⟩],
          current_position := ⟨0, 0⟩ } : State).region_boundary_points =
        regionState.region_boundary_points ++ pts :=
  (region_contour_only_invariant regionState plainBackend sampleD01
      sampleMove sampleFlash rfl rfl).1
    { regionState with
        region_boundary_points := [⟨0, 0⟩, ⟨0, 0⟩],
        current_position := ⟨0, 0⟩ } [] rfl

end PyGerber
